import Mathlib

/-!
# Verification of the lawkit Python binding (src/lib.rs)

Shallow embedding of the pyo3 bridge in `src/src/lib.rs`:
`python_to_value`, `value_to_python`, `lawkit_result_to_python`, and the
option-building loop of `law_py`, together with proofs of the spec's
testable properties.

Host (Python) dynamic values are modelled by `PyValue`; canonical values
(`serde_json::Value`) by `Value`.  IEEE-754 doubles never undergo
arithmetic in this code — they are only classified (finite vs NaN vs
±Infinity) and passed through — so a double is modelled as `FloatVal`:
the three non-finite classes plus a finite payload carried exactly.
-/

set_option maxHeartbeats 1000000

namespace Lawkit

/-- Model of an IEEE-754 double as used by this bridge: the code only ever
classifies a double (finite / NaN / ±∞) and passes the payload through
unchanged, so the finite payload is carried as an exact rational. -/
inductive FloatVal where
  | nan : FloatVal
  | posInf : FloatVal
  | negInf : FloatVal
  | finite (q : Rat) : FloatVal
deriving DecidableEq, Repr

/-- `true` exactly for the finite class: `serde_json::Number::from_f64`
returns `Some` precisely on finite doubles. -/
def FloatVal.isFinite : FloatVal → Bool
  | .finite _ => true
  | _ => false

mutual
/-- Model of a Python object as seen through the pyo3 extraction calls the
source makes: `None`, `bool`, `int` (arbitrary precision), `float`, `str`,
`list`, `dict`, and `other` for any remaining type, carrying the string
produced by its `str()` (the source's fallback branch). -/
inductive PyValue where
  | none : PyValue
  | bool (b : Bool) : PyValue
  | int (i : Int) : PyValue
  | float (f : FloatVal) : PyValue
  | str (s : String) : PyValue
  | list (xs : PyList) : PyValue
  | dict (kvs : PyDict) : PyValue
  | other (strRepr : String) : PyValue
deriving DecidableEq

/-- A Python list (ordered). -/
inductive PyList where
  | nil : PyList
  | cons (hd : PyValue) (tl : PyList) : PyList
deriving DecidableEq

/-- A Python dict: ordered key/value pairs (Python dicts preserve insertion
order); keys are arbitrary objects, as in Python. -/
inductive PyDict where
  | nil : PyDict
  | cons (key : PyValue) (val : PyValue) (tl : PyDict) : PyDict
deriving DecidableEq
end

/-- Model of `serde_json::Number`.  `int` covers the `PosInt`/`NegInt`
variants (an arbitrary `Int`; the i64-range check lives in `asI64`),
`float` the `Float` variant. -/
inductive JNumber where
  | int (i : Int) : JNumber
  | float (f : FloatVal) : JNumber
deriving DecidableEq, Repr

/-- `serde_json::Number::from(i : i64)`. -/
def JNumber.fromI64 (i : Int) : JNumber := .int i

/-- `serde_json::Number::from_f64`: `Some` exactly on finite doubles. -/
def JNumber.fromF64 (f : FloatVal) : Option JNumber :=
  if f.isFinite then some (.float f) else none

/-- `Number::as_i64`: an integer variant in i64 range; `None` on floats. -/
def JNumber.asI64 : JNumber → Option Int
  | .int i => if -(2 ^ 63) ≤ i ∧ i < 2 ^ 63 then some i else none
  | .float _ => none

/-- `Number::as_f64`: integer variants convert (payload carried exactly in
this model), the float variant is returned as is. -/
def JNumber.asF64 : JNumber → Option FloatVal
  | .int i => some (.finite (i : Rat))
  | .float f => some f

mutual
/-- Model of `serde_json::Value` (the spec's CanonicalValue). -/
inductive Value where
  | null : Value
  | bool (b : Bool) : Value
  | num (n : JNumber) : Value
  | str (s : String) : Value
  | arr (xs : JArr) : Value
  | obj (kvs : JObj) : Value
deriving DecidableEq

/-- A JSON array (ordered). -/
inductive JArr where
  | nil : JArr
  | cons (hd : Value) (tl : JArr) : JArr
deriving DecidableEq

/-- A `serde_json::Map<String, Value>`, modelled from the spec as
insertion-order preserving (spec §3: "mapping from string to
CanonicalValue, insertion order preserved"). -/
inductive JObj where
  | nil : JObj
  | cons (key : String) (val : Value) (tl : JObj) : JObj
deriving DecidableEq
end

/-- Host-native exceptions raised at the boundary (the spec's
ConversionError / ConfigError / EngineError are surfaced as pyo3
TypeError / ValueError / RuntimeError respectively). -/
inductive PyErr where
  | typeError (msg : String) : PyErr
  | valueError (msg : String) : PyErr
  | runtimeError (msg : String) : PyErr
deriving DecidableEq

/-- pyo3 `extract::<bool>()`: succeeds only on an actual Python bool. -/
def extractBool : PyValue → Option Bool
  | .bool b => some b
  | _ => none

/-- pyo3 `extract::<i64>()`: succeeds on a Python int in i64 range (and on a
bool, an int subtype in Python); floats and strings are rejected. -/
def extractI64 : PyValue → Option Int
  | .bool b => some (if b then 1 else 0)
  | .int i => if -(2 ^ 63) ≤ i ∧ i < 2 ^ 63 then some i else none
  | _ => none

/-- pyo3 `extract::<f64>()`: a Python float yields its value; ints and bools
convert via `__float__` (the int-to-double conversion is carried exactly in
this model; no claim depends on binary64 rounding of huge ints). -/
def extractF64 : PyValue → Option FloatVal
  | .bool b => some (.finite (if b then 1 else 0))
  | .int i => some (.finite (i : Rat))
  | .float f => some f
  | _ => none

/-- pyo3 `extract::<String>()`: succeeds only on a Python str. -/
def extractString : PyValue → Option String
  | .str s => some s
  | _ => none

/-- pyo3 `extract::<usize>()`: a Python int (or bool) in usize (= u64) range;
negative ints overflow and fail. -/
def extractUsize : PyValue → Option Nat
  | .bool b => some (if b then 1 else 0)
  | .int i => if 0 ≤ i ∧ i < 2 ^ 64 then some i.toNat else none
  | _ => none

/-- `key.extract::<String>()?` in the dict branch of `python_to_value`:
a non-str key raises (the spec's ConversionError). -/
def extractKeyString (k : PyValue) : Except PyErr String :=
  match extractString k with
  | some s => .ok s
  | none => .error (.typeError "dict key is not a string")

/-- `serde_json::Map::insert` under the insertion-order-preserving map
model: an existing key keeps its position and gets the new value, a fresh
key is appended at the end. -/
def JObj.insert : JObj → String → Value → JObj
  | .nil, k, v => .cons k v .nil
  | .cons k' v' tl, k, v =>
      if k' = k then .cons k' v tl else .cons k' v' (tl.insert k v)

mutual
/-- `python_to_value` (src/lib.rs:9-43).  The source tries, in order:
`is_none`, `extract::<bool>`, `extract::<i64>`, `extract::<f64>` guarded by
`Number::from_f64` (finite check), `extract::<String>`, list instance,
dict instance, and finally falls back to the object's `str()`.  Each
`PyValue` constructor lands in exactly one branch of that chain, matched
here constructor by constructor. -/
def python_to_value : PyValue → Except PyErr Value
  | .none => .ok .null
  | .bool b => .ok (.bool b)
  | .int i =>
      -- extract::<i64> succeeds iff i fits in i64; a larger int falls
      -- through to the f64 branch (lossy __float__ conversion)
      if -(2 ^ 63) ≤ i ∧ i < 2 ^ 63 then .ok (.num (.fromI64 i))
      else
        match JNumber.fromF64 (.finite (i : Rat)) with
        | some n => .ok (.num n)
        | none => .ok .null
  | .float f =>
      match JNumber.fromF64 f with
      | some n => .ok (.num n)
      | none => .ok .null
  | .str s => .ok (.str s)
  | .list xs => do
      let vs ← pyListToValues xs
      return .arr vs
  | .dict kvs => do
      let m ← pyDictToMap kvs .nil
      return .obj m
  | .other s => .ok (.str s)

/-- The list loop of `python_to_value`: convert elements in order. -/
def pyListToValues : PyList → Except PyErr JArr
  | .nil => .ok .nil
  | .cons x xs => do
      let v ← python_to_value x
      let vs ← pyListToValues xs
      return .cons v vs

/-- The dict loop of `python_to_value`: extract each key as a String,
convert the value, and `insert` into the growing map. -/
def pyDictToMap : PyDict → JObj → Except PyErr JObj
  | .nil, acc => .ok acc
  | .cons k v tl, acc => do
      let ks ← extractKeyString k
      let jv ← python_to_value v
      pyDictToMap tl (acc.insert ks jv)
end

mutual
/-- `value_to_python` (src/lib.rs:47-76).  Total in this model: the only
failure paths in the source are host-allocation errors.  A Number is sent
through `as_i64` first, then `as_f64`, else host-None. -/
def value_to_python : Value → PyValue
  | .null => .none
  | .bool b => .bool b
  | .num n =>
      match n.asI64 with
      | some i => .int i
      | none =>
        match n.asF64 with
        | some f => .float f
        | none => .none
  | .str s => .str s
  | .arr xs => .list (valuesToPyList xs)
  | .obj kvs => .dict (mapToPyDict kvs)

/-- The array loop of `value_to_python`. -/
def valuesToPyList : JArr → PyList
  | .nil => .nil
  | .cons v tl => .cons (value_to_python v) (valuesToPyList tl)

/-- The object loop of `value_to_python`: keys become Python strs, in map
order. -/
def mapToPyDict : JObj → PyDict
  | .nil => .nil
  | .cons k v tl => .cons (.str k) (value_to_python v) (mapToPyDict tl)
end

/-- Does the map contain the key? (`serde_json::Map` key lookup.) -/
def JObj.hasKey : JObj → String → Bool
  | .nil, _ => false
  | .cons k2 _ tl, k => if k2 = k then true else tl.hasKey k

/-- Concatenation of two key/value sequences (no deduplication). -/
def JObj.append : JObj → JObj → JObj
  | .nil, o => o
  | .cons k v tl, o => .cons k v (tl.append o)

/-- A number producible by `python_to_value`: an integer in i64 range or a
finite float. -/
def JNumber.wf : JNumber → Bool
  | .int i => decide (-(2 ^ 63) ≤ i ∧ i < 2 ^ 63)
  | .float f => f.isFinite

mutual
/-- Characterization of the image of `python_to_value`: all numbers
well-formed and all object key lists duplicate-free. -/
def Value.wf : Value → Bool
  | .null => true
  | .bool _ => true
  | .num n => n.wf
  | .str _ => true
  | .arr xs => JArr.wf xs
  | .obj kvs => JObj.wf kvs

def JArr.wf : JArr → Bool
  | .nil => true
  | .cons v tl => v.wf && JArr.wf tl

def JObj.wf : JObj → Bool
  | .nil => true
  | .cons k v tl => !(tl.hasKey k) && v.wf && JObj.wf tl
end

mutual
/-- A host value composed only of null/bool/int/float/string/sequence/
mapping (no fallback-converted foreign object). -/
def PyValue.plain : PyValue → Bool
  | .none => true
  | .bool _ => true
  | .int _ => true
  | .float _ => true
  | .str _ => true
  | .list xs => PyList.plain xs
  | .dict kvs => PyDict.plain kvs
  | .other _ => false

def PyList.plain : PyList → Bool
  | .nil => true
  | .cons x xs => x.plain && PyList.plain xs

def PyDict.plain : PyDict → Bool
  | .nil => true
  | .cons k v tl => k.plain && v.plain && PyDict.plain tl
end

theorem JObj.hasKey_insert (o : JObj) (k k' : String) (v : Value) :
    (o.insert k v).hasKey k' = ((k = k' : Bool) || o.hasKey k') := by
  cases o with
  | nil => simp [JObj.insert, JObj.hasKey]
  | cons k2 v2 tl =>
      by_cases h2 : k2 = k
      · subst h2
        by_cases h3 : k2 = k'
        · simp [JObj.insert, JObj.hasKey, h3]
        · simp [JObj.insert, JObj.hasKey, h3]
      · by_cases h3 : k2 = k'
        · subst h3
          simp [JObj.insert, JObj.hasKey, h2]
        · simp [JObj.insert, JObj.hasKey, h2, h3, JObj.hasKey_insert tl k k' v]

theorem JObj.wf_insert (o : JObj) (k : String) (v : Value)
    (ho : o.wf = true) (hv : v.wf = true) : (o.insert k v).wf = true := by
  cases o with
  | nil => simp [JObj.insert, JObj.wf, JObj.hasKey, hv]
  | cons k2 v2 tl =>
      simp only [JObj.wf, Bool.and_eq_true, Bool.not_eq_true'] at ho
      obtain ⟨⟨hk2, hv2⟩, htl⟩ := ho
      by_cases h2 : k2 = k
      · subst h2
        simp [JObj.insert, JObj.wf, hk2, htl, hv]
      · simp only [JObj.insert, if_neg h2, JObj.wf, Bool.and_eq_true,
          Bool.not_eq_true']
        refine ⟨⟨?_, hv2⟩, JObj.wf_insert tl k v htl hv⟩
        rw [JObj.hasKey_insert]
        simp [hk2, Ne.symm h2]

theorem JObj.insert_fresh (o : JObj) (k : String) (v : Value)
    (h : o.hasKey k = false) : o.insert k v = o.append (.cons k v .nil) := by
  cases o with
  | nil => simp [JObj.insert, JObj.append]
  | cons k2 v2 tl =>
      simp only [JObj.hasKey] at h
      by_cases h2 : k2 = k
      · simp [h2] at h
      · simp only [if_neg h2] at h
        simp [JObj.insert, JObj.append, h2, JObj.insert_fresh tl k v h]

theorem JObj.append_assoc (a b c : JObj) :
    (a.append b).append c = a.append (b.append c) := by
  cases a with
  | nil => simp [JObj.append]
  | cons k v tl => simp [JObj.append, JObj.append_assoc tl b c]

theorem JObj.append_nil (a : JObj) : a.append .nil = a := by
  cases a with
  | nil => rfl
  | cons k v tl => simp [JObj.append, JObj.append_nil tl]

theorem JObj.hasKey_append (a b : JObj) (k : String) :
    (a.append b).hasKey k = (a.hasKey k || b.hasKey k) := by
  cases a with
  | nil => simp [JObj.append, JObj.hasKey]
  | cons k2 v2 tl =>
      by_cases h2 : k2 = k
      · simp [JObj.append, JObj.hasKey, h2]
      · simp [JObj.append, JObj.hasKey, h2, JObj.hasKey_append tl b k]

/-- All keys of the second map are absent from the first. -/
def JObj.keysFresh (acc : JObj) : JObj → Bool
  | .nil => true
  | .cons k _ tl => !(acc.hasKey k) && acc.keysFresh tl

theorem JObj.keysFresh_append_single (acc tl : JObj) (k : String) (v : Value)
    (hf : acc.keysFresh tl = true) (hk : tl.hasKey k = false) :
    (acc.append (.cons k v .nil)).keysFresh tl = true := by
  cases tl with
  | nil => rfl
  | cons k' v' tl' =>
      simp only [JObj.keysFresh, Bool.and_eq_true, Bool.not_eq_true'] at hf ⊢
      simp only [JObj.hasKey] at hk
      by_cases h2 : k' = k
      · simp [h2] at hk
      · simp only [if_neg h2] at hk
        refine ⟨?_, JObj.keysFresh_append_single acc tl' k v hf.2 hk⟩
        rw [JObj.hasKey_append]
        simp [hf.1, JObj.hasKey, Ne.symm h2]

theorem JObj.keysFresh_nil (o : JObj) : JObj.keysFresh .nil o = true := by
  cases o with
  | nil => rfl
  | cons k v tl => simp [JObj.keysFresh, JObj.hasKey, JObj.keysFresh_nil tl]

mutual
theorem python_to_value_wf (x : PyValue) (v : Value)
    (h : python_to_value x = .ok v) : v.wf = true := by
  cases x with
  | none =>
      simp only [python_to_value, Except.ok.injEq] at h
      subst h; rfl
  | bool b =>
      simp only [python_to_value, Except.ok.injEq] at h
      subst h; rfl
  | int i =>
      by_cases hi : -(2 ^ 63) ≤ i ∧ i < 2 ^ 63
      · simp only [python_to_value, if_pos hi, Except.ok.injEq] at h
        subst h
        simpa [Value.wf, JNumber.fromI64, JNumber.wf] using hi
      · simp only [python_to_value] at h
        rw [if_neg hi] at h
        simp [JNumber.fromF64, FloatVal.isFinite] at h
        subst h; rfl
  | float f =>
      cases f with
      | nan =>
          simp [python_to_value, JNumber.fromF64, FloatVal.isFinite] at h
          subst h; rfl
      | posInf =>
          simp [python_to_value, JNumber.fromF64, FloatVal.isFinite] at h
          subst h; rfl
      | negInf =>
          simp [python_to_value, JNumber.fromF64, FloatVal.isFinite] at h
          subst h; rfl
      | finite q =>
          simp [python_to_value, JNumber.fromF64, FloatVal.isFinite] at h
          subst h; rfl
  | str s =>
      simp only [python_to_value, Except.ok.injEq] at h
      subst h; rfl
  | other s =>
      simp only [python_to_value, Except.ok.injEq] at h
      subst h; rfl
  | list xs =>
      cases hxs : pyListToValues xs with
      | error e => simp [python_to_value, hxs, Bind.bind, Except.bind] at h
      | ok vs =>
          simp [python_to_value, hxs, Bind.bind, Except.bind,
            pure, Except.pure] at h
          subst h
          exact pyListToValues_wf xs vs hxs
  | dict kvs =>
      cases hm : pyDictToMap kvs .nil with
      | error e => simp [python_to_value, hm, Bind.bind, Except.bind] at h
      | ok m =>
          simp [python_to_value, hm, Bind.bind, Except.bind,
            pure, Except.pure] at h
          subst h
          exact pyDictToMap_wf kvs .nil m rfl hm

theorem pyListToValues_wf (xs : PyList) (vs : JArr)
    (h : pyListToValues xs = .ok vs) : vs.wf = true := by
  cases xs with
  | nil =>
      simp only [pyListToValues, Except.ok.injEq] at h
      subst h; rfl
  | cons x tl =>
      cases hx : python_to_value x with
      | error e => simp [pyListToValues, hx, Bind.bind, Except.bind] at h
      | ok v =>
          cases htl : pyListToValues tl with
          | error e =>
              simp [pyListToValues, hx, htl, Bind.bind, Except.bind] at h
          | ok vtl =>
              simp [pyListToValues, hx, htl, Bind.bind, Except.bind,
                pure, Except.pure] at h
              subst h
              simp [JArr.wf, python_to_value_wf x v hx,
                pyListToValues_wf tl vtl htl]

theorem pyDictToMap_wf (kvs : PyDict) (acc m : JObj)
    (hacc : acc.wf = true) (h : pyDictToMap kvs acc = .ok m) : m.wf = true := by
  cases kvs with
  | nil =>
      simp only [pyDictToMap, Except.ok.injEq] at h
      subst h; exact hacc
  | cons k v tl =>
      cases hks : extractKeyString k with
      | error e => simp [pyDictToMap, hks, Bind.bind, Except.bind] at h
      | ok ks =>
          cases hjv : python_to_value v with
          | error e =>
              simp [pyDictToMap, hks, hjv, Bind.bind, Except.bind] at h
          | ok jv =>
              have hwv := python_to_value_wf v jv hjv
              refine pyDictToMap_wf tl (acc.insert ks jv) m
                (JObj.wf_insert acc ks jv hacc hwv) ?_
              simpa [pyDictToMap, hks, hjv, Bind.bind, Except.bind] using h
end

mutual
theorem roundtrip_value (v : Value) (h : v.wf = true) :
    python_to_value (value_to_python v) = .ok v := by
  cases v with
  | null => rfl
  | bool b => rfl
  | str s => rfl
  | num n =>
      cases n with
      | int i =>
          simp only [Value.wf, JNumber.wf, decide_eq_true_eq] at h
          simp only [value_to_python, JNumber.asI64, if_pos h]
          simp only [python_to_value]
          rw [if_pos h]
          rfl
      | float f =>
          cases f with
          | nan => simp [Value.wf, JNumber.wf, FloatVal.isFinite] at h
          | posInf => simp [Value.wf, JNumber.wf, FloatVal.isFinite] at h
          | negInf => simp [Value.wf, JNumber.wf, FloatVal.isFinite] at h
          | finite q =>
              simp [value_to_python, JNumber.asI64, JNumber.asF64,
                python_to_value, JNumber.fromF64, FloatVal.isFinite]
  | arr xs =>
      have hxs := roundtrip_arr xs (by simpa [Value.wf] using h)
      simp [value_to_python, python_to_value, hxs, Bind.bind, Except.bind,
        pure, Except.pure]
  | obj kvs =>
      have hm := roundtrip_obj kvs (by simpa [Value.wf] using h) .nil
        (JObj.keysFresh_nil kvs)
      simp only [JObj.append] at hm
      simp [value_to_python, python_to_value, hm, Bind.bind, Except.bind,
        pure, Except.pure]

theorem roundtrip_arr (xs : JArr) (h : xs.wf = true) :
    pyListToValues (valuesToPyList xs) = .ok xs := by
  cases xs with
  | nil => rfl
  | cons v tl =>
      simp only [JArr.wf, Bool.and_eq_true] at h
      have hv := roundtrip_value v h.1
      have htl := roundtrip_arr tl h.2
      simp [valuesToPyList, pyListToValues, hv, htl, Bind.bind, Except.bind,
        pure, Except.pure]

theorem roundtrip_obj (kvs : JObj) (h : kvs.wf = true) (acc : JObj)
    (hfresh : acc.keysFresh kvs = true) :
    pyDictToMap (mapToPyDict kvs) acc = .ok (acc.append kvs) := by
  cases kvs with
  | nil => simp [mapToPyDict, pyDictToMap, JObj.append_nil]
  | cons k v tl =>
      simp only [JObj.wf, Bool.and_eq_true, Bool.not_eq_true'] at h
      obtain ⟨⟨hk, hv⟩, htl⟩ := h
      simp only [JObj.keysFresh, Bool.and_eq_true, Bool.not_eq_true'] at hfresh
      obtain ⟨hacck, hrest⟩ := hfresh
      have hjv := roundtrip_value v hv
      have hins := JObj.insert_fresh acc k v hacck
      have hrec := roundtrip_obj tl htl (acc.append (.cons k v .nil))
        (JObj.keysFresh_append_single acc tl k v hrest hk)
      simp [mapToPyDict, pyDictToMap, extractKeyString, extractString, hjv,
        hins, hrec, Bind.bind, Except.bind, JObj.append_assoc, JObj.append]
end

/-- **C1** Round-trip: for every CanonicalValue `v` produced by
`python_to_value` from a host value composed only of
null/bool/int/float/string/sequence/mapping, applying `value_to_python`
and then `python_to_value` again yields a value structurally equal to `v`:
conversion is idempotent after the first pass. -/
theorem c1_conversion_idempotent (x : PyValue) (v : Value)
    (hplain : x.plain = true) (hx : python_to_value x = .ok v) :
    python_to_value (value_to_python v) = .ok v :=
  roundtrip_value v (python_to_value_wf x v hx)

/-- Witness for C1 at the host value `{"a": 1, "b": [True, None, 3.0]}`. -/
theorem c1_conversion_idempotent_witness :
    python_to_value (value_to_python (Value.obj (JObj.cons "a"
      (.num (.int 1)) (JObj.cons "b" (.arr (.cons (.bool true) (.cons .null
      (.cons (.num (.float (.finite 3))) .nil)))) .nil)))) =
    .ok (Value.obj (JObj.cons "a" (.num (.int 1)) (JObj.cons "b"
      (.arr (.cons (.bool true) (.cons .null
      (.cons (.num (.float (.finite 3))) .nil)))) .nil))) :=
  c1_conversion_idempotent
    (PyValue.dict (.cons (.str "a") (.int 1) (.cons (.str "b")
      (.list (.cons (.bool true) (.cons .none
      (.cons (.float (.finite 3)) .nil)))) .nil)))
    _ (by rfl) (by rfl)

/-- **C5** Boolean-before-numeric: a host boolean converts to
`Value.bool` with the same truth value — in particular `True` never
becomes `Int(1)` — because the bool extraction is tried before the
integer and float extractions. -/
theorem c5_bool_before_numeric :
    (∀ b : Bool, python_to_value (.bool b) = .ok (.bool b)) ∧
    python_to_value (.bool true) ≠ .ok (.num (.int 1)) :=
  ⟨fun _ => rfl, by simp [python_to_value]⟩

/-- **C4** NaN/Infinity collapse: a host float that is NaN or +Infinity or
-Infinity converts to `Value.null` (never a number), and
`value_to_python Value.null` is the host `None`, not a float. -/
theorem c4_nan_infinity_collapse :
    python_to_value (.float .nan) = .ok .null ∧
    python_to_value (.float .posInf) = .ok .null ∧
    python_to_value (.float .negInf) = .ok .null ∧
    value_to_python .null = .none :=
  ⟨rfl, rfl, rfl, rfl⟩

/-! ## Configuration Builder (the kwargs loop of `law_py`, src/lib.rs:227-353) -/

/-- `lawkit_core::OutputFormat`.  Modelled from the spec: an enum of
recognized rendering-format identifiers (the defining crate is outside
this repository's source). -/
inductive OutputFormat where
  | text : OutputFormat
  | json : OutputFormat
  | csv : OutputFormat
  | yaml : OutputFormat
  | toml : OutputFormat
  | xml : OutputFormat
deriving DecidableEq

/-- Modelled from the spec: `OutputFormat::parse_format` (lawkit_core,
outside src) recognizes a fixed set of format identifiers and rejects
any other string with a diagnostic; in particular "not-a-format" is not
recognized. -/
def OutputFormat.parse_format (s : String) : Except String OutputFormat :=
  if s = "text" then .ok .text
  else if s = "json" then .ok .json
  else if s = "csv" then .ok .csv
  else if s = "yaml" then .ok .yaml
  else if s = "toml" then .ok .toml
  else if s = "xml" then .ok .xml
  else .error ("unknown output format: " ++ s)

/-- Does every `)` close an open group and every `(` get closed?  Scans
with the current open-group depth. -/
def parenBalanced : List Char → Nat → Bool
  | [], 0 => true
  | [], _ + 1 => false
  | c :: rest, d =>
      if c = '(' then parenBalanced rest (d + 1)
      else if c = ')' then
        match d with
        | 0 => false
        | d' + 1 => parenBalanced rest d'
      else parenBalanced rest d

/-- Modelled from the spec: `regex::Regex::new`'s compile check (the regex
engine is an external collaborator, spec §1).  The spec fixes only that
syntactically malformed patterns — its example is the unterminated group
"(unterminated" — are rejected with a diagnostic; the model rejects
exactly the patterns with unbalanced group parentheses. -/
def regexCompile (p : String) : Except String Unit :=
  if parenBalanced p.toList 0 then .ok () else .error ("regex parse error: " ++ p)

/-- `lawkit_core::LawkitSpecificOptions` (the spec's DomainOptions), fields
as consumed by the kwargs loop; every field defaults to unset. -/
structure LawkitSpecificOptions where
  risk_threshold : Option String := none
  confidence_level : Option FloatVal := none
  analysis_threshold : Option FloatVal := none
  significance_level : Option FloatVal := none
  min_sample_size : Option Nat := none
  enable_outlier_detection : Option Bool := none
  enable_japanese_numerals : Option Bool := none
  enable_international_numerals : Option Bool := none
  enable_parallel_processing : Option Bool := none
  memory_limit_mb : Option Nat := none
deriving DecidableEq

/-- `lawkit_core::LawkitOptions` (the spec's GenericOptions plus the
optional DomainOptions); a compiled regex is represented by its pattern.
Every field defaults to unset. -/
structure LawkitOptions where
  ignore_keys_regex : Option String := none
  path_filter : Option String := none
  output_format : Option OutputFormat := none
  show_details : Option Bool := none
  show_recommendations : Option Bool := none
  use_memory_optimization : Option Bool := none
  batch_size : Option Nat := none
  lawkit_options : Option LawkitSpecificOptions := none
deriving DecidableEq

/-- State threaded through the kwargs loop of `law_py`: `options`,
`lawkit_options` and the `has_lawkit_options` flag of src/lib.rs:228-230. -/
structure BuildState where
  options : LawkitOptions
  lawkit : LawkitSpecificOptions
  hasLawkit : Bool
deriving DecidableEq

/-- One iteration of the kwargs loop (src/lib.rs:233-348): first-match
dispatch on the key name (the source's `match key_str.as_str()`), with a
silently-skipping `if let Ok(..) = value.extract::<..>()` in every arm; a
string value for `ignore_keys_regex` that fails to compile, or for
`output_format` that is not a recognized identifier, raises a ValueError
carrying the diagnostic; an unknown key falls to the final arm and is
ignored. -/
def processKwarg (k : String) (v : PyValue) (st : BuildState) :
    Except PyErr BuildState :=
  if k = "ignore_keys_regex" then
    match extractString v with
    | some p =>
        match regexCompile p with
        | .ok _ => .ok { st with options := { st.options with ignore_keys_regex := some p } }
        | .error e => .error (.valueError ("Invalid regex: " ++ e))
    | none => .ok st
  else if k = "path_filter" then
    match extractString v with
    | some f => .ok { st with options := { st.options with path_filter := some f } }
    | none => .ok st
  else if k = "output_format" then
    match extractString v with
    | some s =>
        match OutputFormat.parse_format s with
        | .ok fmt => .ok { st with options := { st.options with output_format := some fmt } }
        | .error e => .error (.valueError ("Invalid format: " ++ e))
    | none => .ok st
  else if k = "show_details" then
    match extractBool v with
    | some b => .ok { st with options := { st.options with show_details := some b } }
    | none => .ok st
  else if k = "show_recommendations" then
    match extractBool v with
    | some b => .ok { st with options := { st.options with show_recommendations := some b } }
    | none => .ok st
  else if k = "use_memory_optimization" then
    match extractBool v with
    | some b => .ok { st with options := { st.options with use_memory_optimization := some b } }
    | none => .ok st
  else if k = "batch_size" then
    match extractUsize v with
    | some n => .ok { st with options := { st.options with batch_size := some n } }
    | none => .ok st
  else if k = "risk_threshold" then
    match extractString v with
    | some t => .ok { st with lawkit := { st.lawkit with risk_threshold := some t },
                              hasLawkit := true }
    | none => .ok st
  else if k = "confidence_level" then
    match extractF64 v with
    | some x => .ok { st with lawkit := { st.lawkit with confidence_level := some x },
                              hasLawkit := true }
    | none => .ok st
  else if k = "analysis_threshold" then
    match extractF64 v with
    | some x => .ok { st with lawkit := { st.lawkit with analysis_threshold := some x },
                              hasLawkit := true }
    | none => .ok st
  else if k = "significance_level" then
    match extractF64 v with
    | some x => .ok { st with lawkit := { st.lawkit with significance_level := some x },
                              hasLawkit := true }
    | none => .ok st
  else if k = "min_sample_size" then
    match extractUsize v with
    | some n => .ok { st with lawkit := { st.lawkit with min_sample_size := some n },
                              hasLawkit := true }
    | none => .ok st
  else if k = "enable_outlier_detection" then
    match extractBool v with
    | some b => .ok { st with lawkit := { st.lawkit with enable_outlier_detection := some b },
                              hasLawkit := true }
    | none => .ok st
  else if k = "enable_japanese_numerals" then
    match extractBool v with
    | some b => .ok { st with lawkit := { st.lawkit with enable_japanese_numerals := some b },
                              hasLawkit := true }
    | none => .ok st
  else if k = "enable_international_numerals" then
    match extractBool v with
    | some b => .ok { st with lawkit := { st.lawkit with enable_international_numerals := some b },
                              hasLawkit := true }
    | none => .ok st
  else if k = "enable_parallel_processing" then
    match extractBool v with
    | some b => .ok { st with lawkit := { st.lawkit with enable_parallel_processing := some b },
                              hasLawkit := true }
    | none => .ok st
  else if k = "memory_limit_mb" then
    match extractUsize v with
    | some n => .ok { st with lawkit := { st.lawkit with memory_limit_mb := some n },
                              hasLawkit := true }
    | none => .ok st
  else
    .ok st

/-- The whole kwargs loop: process entries in iteration order, stopping at
the first error. -/
def processKwargs : List (String × PyValue) → BuildState → Except PyErr BuildState
  | [], st => .ok st
  | (k, v) :: rest, st => do
      let st' ← processKwarg k v st
      processKwargs rest st'

/-- The option-building phase of `law_py` (src/lib.rs:228-353): defaults,
the kwargs loop, and the conditional attachment of the domain-specific
options (`if has_lawkit_options { options.lawkit_options = Some(..) }`). -/
def buildOptions (kwargs : List (String × PyValue)) : Except PyErr LawkitOptions := do
  let st ← processKwargs kwargs ⟨{}, {}, false⟩
  if st.hasLawkit then
    return { st.options with lawkit_options := some st.lawkit }
  else
    return st.options

/-- Is the computation an error? -/
def isErr {ε α : Type} : Except ε α → Bool
  | .error _ => true
  | .ok _ => false

/-- The 17 recognized option keys: 7 generic, then 10 domain-specific. -/
def recognizedKeys : List String :=
  ["ignore_keys_regex", "path_filter", "output_format", "show_details",
   "show_recommendations", "use_memory_optimization", "batch_size",
   "risk_threshold", "confidence_level", "analysis_threshold",
   "significance_level", "min_sample_size", "enable_outlier_detection",
   "enable_japanese_numerals", "enable_international_numerals",
   "enable_parallel_processing", "memory_limit_mb"]

/-- The exactly-two syntactic failure cases of the kwargs loop: a string
supplied for `ignore_keys_regex` that does not compile, or a string
supplied for `output_format` that is not a recognized format identifier. -/
def entryFails : String × PyValue → Bool
  | (k, v) =>
    if k = "ignore_keys_regex" then
      match extractString v with
      | some p => isErr (regexCompile p)
      | none => false
    else if k = "output_format" then
      match extractString v with
      | some s => isErr (OutputFormat.parse_format s)
      | none => false
    else false

/-- A domain-specific key whose value coerces to its declared type (the
entries that set `has_lawkit_options`). -/
def domainHit : String × PyValue → Bool
  | (k, v) =>
    if k = "risk_threshold" then (extractString v).isSome
    else if k = "confidence_level" then (extractF64 v).isSome
    else if k = "analysis_threshold" then (extractF64 v).isSome
    else if k = "significance_level" then (extractF64 v).isSome
    else if k = "min_sample_size" then (extractUsize v).isSome
    else if k = "enable_outlier_detection" then (extractBool v).isSome
    else if k = "enable_japanese_numerals" then (extractBool v).isSome
    else if k = "enable_international_numerals" then (extractBool v).isSome
    else if k = "enable_parallel_processing" then (extractBool v).isSome
    else if k = "memory_limit_mb" then (extractUsize v).isSome
    else false

/-- Does the value coerce to the declared type of the (recognized) key? -/
def coercesDeclared (k : String) (v : PyValue) : Bool :=
  if k = "ignore_keys_regex" then (extractString v).isSome
  else if k = "path_filter" then (extractString v).isSome
  else if k = "output_format" then (extractString v).isSome
  else if k = "show_details" then (extractBool v).isSome
  else if k = "show_recommendations" then (extractBool v).isSome
  else if k = "use_memory_optimization" then (extractBool v).isSome
  else if k = "batch_size" then (extractUsize v).isSome
  else if k = "risk_threshold" then (extractString v).isSome
  else if k = "confidence_level" then (extractF64 v).isSome
  else if k = "analysis_threshold" then (extractF64 v).isSome
  else if k = "significance_level" then (extractF64 v).isSome
  else if k = "min_sample_size" then (extractUsize v).isSome
  else if k = "enable_outlier_detection" then (extractBool v).isSome
  else if k = "enable_japanese_numerals" then (extractBool v).isSome
  else if k = "enable_international_numerals" then (extractBool v).isSome
  else if k = "enable_parallel_processing" then (extractBool v).isSome
  else if k = "memory_limit_mb" then (extractUsize v).isSome
  else false

theorem processKwarg_spec (k : String) (v : PyValue) (st : BuildState) :
    isErr (processKwarg k v st) = entryFails (k, v) ∧
    ∀ st', processKwarg k v st = .ok st' →
      st'.hasLawkit = (st.hasLawkit || domainHit (k, v)) ∧
      st'.options.lawkit_options = st.options.lawkit_options := by
  rcases eq_or_ne k "ignore_keys_regex" with rfl | h1
  · cases hv : extractString v with
    | none =>
        refine ⟨by simp [processKwarg, entryFails, hv, isErr], fun st' hok => ?_⟩
        simp [processKwarg, hv] at hok
        subst hok; simp [domainHit]
    | some p =>
        cases hc : regexCompile p with
        | ok u =>
            refine ⟨by simp [processKwarg, entryFails, hv, hc, isErr],
              fun st' hok => ?_⟩
            simp [processKwarg, hv, hc] at hok
            subst hok; simp [domainHit]
        | error e =>
            refine ⟨by simp [processKwarg, entryFails, hv, hc, isErr],
              fun st' hok => ?_⟩
            simp [processKwarg, hv, hc] at hok
  rcases eq_or_ne k "path_filter" with rfl | h2
  · cases hv : extractString v with
    | none =>
        refine ⟨by simp [processKwarg, entryFails, hv, isErr], fun st' hok => ?_⟩
        simp [processKwarg, hv] at hok
        subst hok; simp [domainHit]
    | some s =>
        refine ⟨by simp [processKwarg, entryFails, hv, isErr], fun st' hok => ?_⟩
        simp [processKwarg, hv] at hok
        subst hok; simp [domainHit]
  rcases eq_or_ne k "output_format" with rfl | h3
  · cases hv : extractString v with
    | none =>
        refine ⟨by simp [processKwarg, entryFails, hv, isErr], fun st' hok => ?_⟩
        simp [processKwarg, hv] at hok
        subst hok; simp [domainHit]
    | some s =>
        cases hc : OutputFormat.parse_format s with
        | ok fmt =>
            refine ⟨by simp [processKwarg, entryFails, hv, hc, isErr],
              fun st' hok => ?_⟩
            simp [processKwarg, hv, hc] at hok
            subst hok; simp [domainHit]
        | error e =>
            refine ⟨by simp [processKwarg, entryFails, hv, hc, isErr],
              fun st' hok => ?_⟩
            simp [processKwarg, hv, hc] at hok
  rcases eq_or_ne k "show_details" with rfl | h4
  · cases hv : extractBool v with
    | none =>
        refine ⟨by simp [processKwarg, entryFails, hv, isErr], fun st' hok => ?_⟩
        simp [processKwarg, hv] at hok
        subst hok; simp [domainHit]
    | some b =>
        refine ⟨by simp [processKwarg, entryFails, hv, isErr], fun st' hok => ?_⟩
        simp [processKwarg, hv] at hok
        subst hok; simp [domainHit]
  rcases eq_or_ne k "show_recommendations" with rfl | h5
  · cases hv : extractBool v with
    | none =>
        refine ⟨by simp [processKwarg, entryFails, hv, isErr], fun st' hok => ?_⟩
        simp [processKwarg, hv] at hok
        subst hok; simp [domainHit]
    | some b =>
        refine ⟨by simp [processKwarg, entryFails, hv, isErr], fun st' hok => ?_⟩
        simp [processKwarg, hv] at hok
        subst hok; simp [domainHit]
  rcases eq_or_ne k "use_memory_optimization" with rfl | h6
  · cases hv : extractBool v with
    | none =>
        refine ⟨by simp [processKwarg, entryFails, hv, isErr], fun st' hok => ?_⟩
        simp [processKwarg, hv] at hok
        subst hok; simp [domainHit]
    | some b =>
        refine ⟨by simp [processKwarg, entryFails, hv, isErr], fun st' hok => ?_⟩
        simp [processKwarg, hv] at hok
        subst hok; simp [domainHit]
  rcases eq_or_ne k "batch_size" with rfl | h7
  · cases hv : extractUsize v with
    | none =>
        refine ⟨by simp [processKwarg, entryFails, hv, isErr], fun st' hok => ?_⟩
        simp [processKwarg, hv] at hok
        subst hok; simp [domainHit]
    | some n =>
        refine ⟨by simp [processKwarg, entryFails, hv, isErr], fun st' hok => ?_⟩
        simp [processKwarg, hv] at hok
        subst hok; simp [domainHit]
  rcases eq_or_ne k "risk_threshold" with rfl | h8
  · cases hv : extractString v with
    | none =>
        refine ⟨by simp [processKwarg, entryFails, hv, isErr], fun st' hok => ?_⟩
        simp [processKwarg, hv] at hok
        subst hok; simp [domainHit, hv]
    | some t =>
        refine ⟨by simp [processKwarg, entryFails, hv, isErr], fun st' hok => ?_⟩
        simp [processKwarg, hv] at hok
        subst hok; simp [domainHit, hv]
  rcases eq_or_ne k "confidence_level" with rfl | h9
  · cases hv : extractF64 v with
    | none =>
        refine ⟨by simp [processKwarg, entryFails, hv, isErr], fun st' hok => ?_⟩
        simp [processKwarg, hv] at hok
        subst hok; simp [domainHit, hv]
    | some x =>
        refine ⟨by simp [processKwarg, entryFails, hv, isErr], fun st' hok => ?_⟩
        simp [processKwarg, hv] at hok
        subst hok; simp [domainHit, hv]
  rcases eq_or_ne k "analysis_threshold" with rfl | h10
  · cases hv : extractF64 v with
    | none =>
        refine ⟨by simp [processKwarg, entryFails, hv, isErr], fun st' hok => ?_⟩
        simp [processKwarg, hv] at hok
        subst hok; simp [domainHit, hv]
    | some x =>
        refine ⟨by simp [processKwarg, entryFails, hv, isErr], fun st' hok => ?_⟩
        simp [processKwarg, hv] at hok
        subst hok; simp [domainHit, hv]
  rcases eq_or_ne k "significance_level" with rfl | h11
  · cases hv : extractF64 v with
    | none =>
        refine ⟨by simp [processKwarg, entryFails, hv, isErr], fun st' hok => ?_⟩
        simp [processKwarg, hv] at hok
        subst hok; simp [domainHit, hv]
    | some x =>
        refine ⟨by simp [processKwarg, entryFails, hv, isErr], fun st' hok => ?_⟩
        simp [processKwarg, hv] at hok
        subst hok; simp [domainHit, hv]
  rcases eq_or_ne k "min_sample_size" with rfl | h12
  · cases hv : extractUsize v with
    | none =>
        refine ⟨by simp [processKwarg, entryFails, hv, isErr], fun st' hok => ?_⟩
        simp [processKwarg, hv] at hok
        subst hok; simp [domainHit, hv]
    | some n =>
        refine ⟨by simp [processKwarg, entryFails, hv, isErr], fun st' hok => ?_⟩
        simp [processKwarg, hv] at hok
        subst hok; simp [domainHit, hv]
  rcases eq_or_ne k "enable_outlier_detection" with rfl | h13
  · cases hv : extractBool v with
    | none =>
        refine ⟨by simp [processKwarg, entryFails, hv, isErr], fun st' hok => ?_⟩
        simp [processKwarg, hv] at hok
        subst hok; simp [domainHit, hv]
    | some b =>
        refine ⟨by simp [processKwarg, entryFails, hv, isErr], fun st' hok => ?_⟩
        simp [processKwarg, hv] at hok
        subst hok; simp [domainHit, hv]
  rcases eq_or_ne k "enable_japanese_numerals" with rfl | h14
  · cases hv : extractBool v with
    | none =>
        refine ⟨by simp [processKwarg, entryFails, hv, isErr], fun st' hok => ?_⟩
        simp [processKwarg, hv] at hok
        subst hok; simp [domainHit, hv]
    | some b =>
        refine ⟨by simp [processKwarg, entryFails, hv, isErr], fun st' hok => ?_⟩
        simp [processKwarg, hv] at hok
        subst hok; simp [domainHit, hv]
  rcases eq_or_ne k "enable_international_numerals" with rfl | h15
  · cases hv : extractBool v with
    | none =>
        refine ⟨by simp [processKwarg, entryFails, hv, isErr], fun st' hok => ?_⟩
        simp [processKwarg, hv] at hok
        subst hok; simp [domainHit, hv]
    | some b =>
        refine ⟨by simp [processKwarg, entryFails, hv, isErr], fun st' hok => ?_⟩
        simp [processKwarg, hv] at hok
        subst hok; simp [domainHit, hv]
  rcases eq_or_ne k "enable_parallel_processing" with rfl | h16
  · cases hv : extractBool v with
    | none =>
        refine ⟨by simp [processKwarg, entryFails, hv, isErr], fun st' hok => ?_⟩
        simp [processKwarg, hv] at hok
        subst hok; simp [domainHit, hv]
    | some b =>
        refine ⟨by simp [processKwarg, entryFails, hv, isErr], fun st' hok => ?_⟩
        simp [processKwarg, hv] at hok
        subst hok; simp [domainHit, hv]
  rcases eq_or_ne k "memory_limit_mb" with rfl | h17
  · cases hv : extractUsize v with
    | none =>
        refine ⟨by simp [processKwarg, entryFails, hv, isErr], fun st' hok => ?_⟩
        simp [processKwarg, hv] at hok
        subst hok; simp [domainHit, hv]
    | some n =>
        refine ⟨by simp [processKwarg, entryFails, hv, isErr], fun st' hok => ?_⟩
        simp [processKwarg, hv] at hok
        subst hok; simp [domainHit, hv]
  refine ⟨by simp [processKwarg, entryFails, isErr, h1, h2, h3, h4, h5, h6,
    h7, h8, h9, h10, h11, h12, h13, h14, h15, h16, h17], fun st' hok => ?_⟩
  simp [processKwarg, h1, h2, h3, h4, h5, h6, h7, h8, h9, h10, h11, h12,
    h13, h14, h15, h16, h17] at hok
  subst hok
  simp [domainHit, h8, h9, h10, h11, h12, h13, h14, h15, h16, h17]

theorem processKwargs_isErr : ∀ (l : List (String × PyValue)) (st : BuildState),
    isErr (processKwargs l st) = l.any entryFails
  | [], _ => rfl
  | (k, v) :: rest, st => by
      cases hp : processKwarg k v st with
      | error e =>
          have h1 := (processKwarg_spec k v st).1
          rw [hp] at h1
          have h2 : entryFails (k, v) = true := by rw [← h1]; rfl
          simp [processKwargs, hp, Bind.bind, Except.bind, isErr, h2]
      | ok st1 =>
          have h1 := (processKwarg_spec k v st).1
          rw [hp] at h1
          have h2 : entryFails (k, v) = false := by rw [← h1]; rfl
          simp [processKwargs, hp, Bind.bind, Except.bind, h2,
            processKwargs_isErr rest st1]

theorem buildOptions_isErr (kwargs : List (String × PyValue)) :
    isErr (buildOptions kwargs) = kwargs.any entryFails := by
  unfold buildOptions
  cases hp : processKwargs kwargs ⟨{}, {}, false⟩ with
  | error e =>
      have h1 := processKwargs_isErr kwargs ⟨{}, {}, false⟩
      rw [hp] at h1
      simp [Bind.bind, Except.bind, isErr, ← h1]
  | ok st =>
      have h1 := processKwargs_isErr kwargs ⟨{}, {}, false⟩
      rw [hp] at h1
      simp only [Bind.bind, Except.bind]
      by_cases hl : st.hasLawkit
      · simp [hl, pure, Except.pure, isErr, ← h1]
      · simp [hl, pure, Except.pure, isErr, ← h1]

theorem processKwargs_append (l1 l2 : List (String × PyValue)) (st : BuildState) :
    processKwargs (l1 ++ l2) st =
      match processKwargs l1 st with
      | .ok st' => processKwargs l2 st'
      | .error e => .error e := by
  induction l1 generalizing st with
  | nil => simp [processKwargs]
  | cons kv rest ih =>
      obtain ⟨k, v⟩ := kv
      cases hp : processKwarg k v st with
      | error e => simp [processKwargs, hp, Bind.bind, Except.bind]
      | ok st1 => simp [processKwargs, hp, Bind.bind, Except.bind, ih st1]

theorem processKwargs_middle_id (k : String) (v : PyValue)
    (hid : ∀ st, processKwarg k v st = .ok st)
    (l1 l2 : List (String × PyValue)) (st : BuildState) :
    processKwargs (l1 ++ (k, v) :: l2) st = processKwargs (l1 ++ l2) st := by
  rw [processKwargs_append, processKwargs_append]
  cases processKwargs l1 st with
  | error e => rfl
  | ok st1 => simp [processKwargs, hid st1, Bind.bind, Except.bind]

theorem buildOptions_skip (k : String) (v : PyValue)
    (hid : ∀ st, processKwarg k v st = .ok st)
    (l1 l2 : List (String × PyValue)) :
    buildOptions (l1 ++ (k, v) :: l2) = buildOptions (l1 ++ l2) := by
  unfold buildOptions
  rw [processKwargs_middle_id k v hid l1 l2]

theorem processKwarg_unknown_id (k : String) (v : PyValue) (st : BuildState)
    (hk : k ∉ recognizedKeys) : processKwarg k v st = .ok st := by
  simp only [recognizedKeys, List.mem_cons, List.not_mem_nil, or_false,
    not_or] at hk
  obtain ⟨h1, h2, h3, h4, h5, h6, h7, h8, h9, h10, h11, h12, h13, h14, h15,
    h16, h17⟩ := hk
  simp [processKwarg, h1, h2, h3, h4, h5, h6, h7, h8, h9, h10, h11, h12,
    h13, h14, h15, h16, h17]

theorem processKwarg_noCoerce_id (k : String) (v : PyValue) (st : BuildState)
    (hco : coercesDeclared k v = false) :
    processKwarg k v st = .ok st := by
  rcases eq_or_ne k "ignore_keys_regex" with rfl | h1
  · cases hv : extractString v with
    | some w => simp [coercesDeclared, hv] at hco
    | none => simp [processKwarg, hv]
  rcases eq_or_ne k "path_filter" with rfl | h2
  · cases hv : extractString v with
    | some w => simp [coercesDeclared, hv] at hco
    | none => simp [processKwarg, hv]
  rcases eq_or_ne k "output_format" with rfl | h3
  · cases hv : extractString v with
    | some w => simp [coercesDeclared, hv] at hco
    | none => simp [processKwarg, hv]
  rcases eq_or_ne k "show_details" with rfl | h4
  · cases hv : extractBool v with
    | some w => simp [coercesDeclared, hv] at hco
    | none => simp [processKwarg, hv]
  rcases eq_or_ne k "show_recommendations" with rfl | h5
  · cases hv : extractBool v with
    | some w => simp [coercesDeclared, hv] at hco
    | none => simp [processKwarg, hv]
  rcases eq_or_ne k "use_memory_optimization" with rfl | h6
  · cases hv : extractBool v with
    | some w => simp [coercesDeclared, hv] at hco
    | none => simp [processKwarg, hv]
  rcases eq_or_ne k "batch_size" with rfl | h7
  · cases hv : extractUsize v with
    | some w => simp [coercesDeclared, hv] at hco
    | none => simp [processKwarg, hv]
  rcases eq_or_ne k "risk_threshold" with rfl | h8
  · cases hv : extractString v with
    | some w => simp [coercesDeclared, hv] at hco
    | none => simp [processKwarg, hv]
  rcases eq_or_ne k "confidence_level" with rfl | h9
  · cases hv : extractF64 v with
    | some w => simp [coercesDeclared, hv] at hco
    | none => simp [processKwarg, hv]
  rcases eq_or_ne k "analysis_threshold" with rfl | h10
  · cases hv : extractF64 v with
    | some w => simp [coercesDeclared, hv] at hco
    | none => simp [processKwarg, hv]
  rcases eq_or_ne k "significance_level" with rfl | h11
  · cases hv : extractF64 v with
    | some w => simp [coercesDeclared, hv] at hco
    | none => simp [processKwarg, hv]
  rcases eq_or_ne k "min_sample_size" with rfl | h12
  · cases hv : extractUsize v with
    | some w => simp [coercesDeclared, hv] at hco
    | none => simp [processKwarg, hv]
  rcases eq_or_ne k "enable_outlier_detection" with rfl | h13
  · cases hv : extractBool v with
    | some w => simp [coercesDeclared, hv] at hco
    | none => simp [processKwarg, hv]
  rcases eq_or_ne k "enable_japanese_numerals" with rfl | h14
  · cases hv : extractBool v with
    | some w => simp [coercesDeclared, hv] at hco
    | none => simp [processKwarg, hv]
  rcases eq_or_ne k "enable_international_numerals" with rfl | h15
  · cases hv : extractBool v with
    | some w => simp [coercesDeclared, hv] at hco
    | none => simp [processKwarg, hv]
  rcases eq_or_ne k "enable_parallel_processing" with rfl | h16
  · cases hv : extractBool v with
    | some w => simp [coercesDeclared, hv] at hco
    | none => simp [processKwarg, hv]
  rcases eq_or_ne k "memory_limit_mb" with rfl | h17
  · cases hv : extractUsize v with
    | some w => simp [coercesDeclared, hv] at hco
    | none => simp [processKwarg, hv]
  simp [processKwarg, h1, h2, h3, h4, h5, h6, h7, h8, h9, h10, h11, h12,
    h13, h14, h15, h16, h17]

theorem processKwargs_state : ∀ (l : List (String × PyValue)) (st st' : BuildState),
    processKwargs l st = .ok st' →
    st'.hasLawkit = (st.hasLawkit || l.any domainHit) ∧
    st'.options.lawkit_options = st.options.lawkit_options
  | [], st, st', h => by
      simp only [processKwargs, Except.ok.injEq] at h
      subst h
      simp
  | (k, v) :: rest, st, st', h => by
      cases hp : processKwarg k v st with
      | error e => simp [processKwargs, hp, Bind.bind, Except.bind] at h
      | ok st1 =>
          have hstep := (processKwarg_spec k v st).2 st1 hp
          simp only [processKwargs, hp, Bind.bind, Except.bind] at h
          have hrest := processKwargs_state rest st1 st' h
          refine ⟨?_, hrest.2.trans hstep.2⟩
          rw [hrest.1, hstep.1, List.any_cons, Bool.or_assoc]

/-- **C2** Option building raises ConfigError exactly for the syntactic
failures (a string for `ignore_keys_regex` that does not compile, a string
for `output_format` that is not a recognized identifier, the two cases of
`entryFails`), and is lenient otherwise: a recognized key whose value does
not coerce to its declared type is silently skipped and leaves the built
options unchanged. -/
theorem c2_config_error_exactly_syntactic :
    (∀ kwargs : List (String × PyValue),
        isErr (buildOptions kwargs) = kwargs.any entryFails) ∧
    (∀ (k : String) (v : PyValue) (l1 l2 : List (String × PyValue)),
        k ∈ recognizedKeys → coercesDeclared k v = false →
        entryFails (k, v) = false →
        buildOptions (l1 ++ (k, v) :: l2) = buildOptions (l1 ++ l2)) :=
  ⟨buildOptions_isErr, fun k v l1 l2 _ hco _ =>
    buildOptions_skip k v (fun st => processKwarg_noCoerce_id k v st hco) l1 l2⟩

/-- Witness for C2: the spec's two failing examples fail, and a
recognized key (`show_details`) with an uncoercible (string) value is
dropped without error. -/
theorem c2_config_error_exactly_syntactic_witness :
    isErr (buildOptions [("ignore_keys_regex", PyValue.str "(unterminated")]) =
      [("ignore_keys_regex", PyValue.str "(unterminated")].any entryFails ∧
    isErr (buildOptions [("output_format", PyValue.str "not-a-format")]) =
      [("output_format", PyValue.str "not-a-format")].any entryFails ∧
    buildOptions [("show_details", PyValue.str "yes")] = buildOptions [] :=
  ⟨c2_config_error_exactly_syntactic.1 [("ignore_keys_regex", PyValue.str "(unterminated")],
   c2_config_error_exactly_syntactic.1 [("output_format", PyValue.str "not-a-format")],
   c2_config_error_exactly_syntactic.2 "show_details" (PyValue.str "yes") [] []
     (by decide) (by rfl) (by rfl)⟩

/-- **C6** Unknown-key tolerance: an entry whose key is not one of the 17
recognized option names is processed as a no-op (no error), so inserting
it anywhere in the mapping leaves the result of `buildOptions` unchanged. -/
theorem c6_unknown_key_tolerance (k : String) (v : PyValue)
    (l1 l2 : List (String × PyValue)) (hk : k ∉ recognizedKeys) :
    (∀ st, processKwarg k v st = .ok st) ∧
    buildOptions (l1 ++ (k, v) :: l2) = buildOptions (l1 ++ l2) :=
  ⟨fun st => processKwarg_unknown_id k v st hk,
   buildOptions_skip k v (fun st => processKwarg_unknown_id k v st hk) l1 l2⟩

/-- Witness for C6: the unrecognized key "epsilon" next to the recognized
`show_details` changes nothing. -/
theorem c6_unknown_key_tolerance_witness :
    (∀ st, processKwarg "epsilon" (PyValue.float (.finite 1)) st = .ok st) ∧
    buildOptions ([("show_details", PyValue.bool true)] ++
        ("epsilon", PyValue.float (.finite 1)) :: []) =
      buildOptions ([("show_details", PyValue.bool true)] ++ []) :=
  c6_unknown_key_tolerance "epsilon" (PyValue.float (.finite 1))
    [("show_details", PyValue.bool true)] [] (by decide)

/-- **C7** Conditional DomainOptions attachment: a successful
`buildOptions` run carries `lawkit_options = some ..` if and only if some
entry supplied a domain-specific key with a value that coerced to its
declared type (`domainHit`). -/
theorem c7_domain_options_iff (kwargs : List (String × PyValue))
    (opts : LawkitOptions) (h : buildOptions kwargs = .ok opts) :
    opts.lawkit_options.isSome = kwargs.any domainHit := by
  unfold buildOptions at h
  cases hp : processKwargs kwargs ⟨{}, {}, false⟩ with
  | error e => rw [hp] at h; simp [Bind.bind, Except.bind] at h
  | ok st =>
      rw [hp] at h
      simp only [Bind.bind, Except.bind] at h
      obtain ⟨hflag, hopt⟩ := processKwargs_state kwargs _ st hp
      simp only [Bool.false_or] at hflag
      by_cases hl : st.hasLawkit
      · rw [if_pos hl] at h
        simp only [pure, Except.pure, Except.ok.injEq] at h
        subst h
        simp [← hflag, hl]
      · rw [if_neg hl] at h
        simp only [pure, Except.pure, Except.ok.injEq] at h
        subst h
        rw [hopt]
        simp only [← hflag]
        simp [Bool.not_eq_true] at hl
        simp [hl]

/-- Witness for C7: one coercing domain key (`confidence_level`) attaches
the domain options. -/
theorem c7_domain_options_iff_witness :
    (({ lawkit_options :=
        some { confidence_level := some (.finite 1) } } : LawkitOptions)).lawkit_options.isSome =
      [("confidence_level", PyValue.float (.finite 1))].any domainHit :=
  c7_domain_options_iff [("confidence_level", PyValue.float (.finite 1))]
    { lawkit_options := some { confidence_level := some (.finite 1) } } (by rfl)

/-- Counterexample to C10 as stated: a mapping that binds `batch_size` to
a negative integer but on which `buildOptions` nevertheless fails (another
entry carries a non-compiling regex), so "buildOptions succeeds without
error" does not hold of every mapping containing such an entry. -/
theorem c10_counterexample :
    isErr (buildOptions [("ignore_keys_regex", PyValue.str "(unterminated"),
      ("batch_size", PyValue.int (-1))]) = true := by rfl

/-- **C10 (amended)** A negative integer bound to `batch_size`,
`min_sample_size` or `memory_limit_mb` does not coerce to the unsigned
integer type, so that entry raises no error and is silently dropped: the
built options are identical to those from the mapping without the entry
(the call as a whole still fails iff some other entry is a syntactic
failure). -/
theorem c10_negative_int_dropped (k : String) (i : Int)
    (l1 l2 : List (String × PyValue))
    (hk : k = "batch_size" ∨ k = "min_sample_size" ∨ k = "memory_limit_mb")
    (hi : i < 0) :
    (∀ st, processKwarg k (.int i) st = .ok st) ∧
    buildOptions (l1 ++ (k, .int i) :: l2) = buildOptions (l1 ++ l2) := by
  have hco : coercesDeclared k (.int i) = false := by
    rcases hk with rfl | rfl | rfl <;> simp [coercesDeclared, extractUsize] <;>
      omega
  exact ⟨fun st => processKwarg_noCoerce_id k _ st hco,
    buildOptions_skip k _ (fun st => processKwarg_noCoerce_id k _ st hco) l1 l2⟩

/-- Witness for C10 (amended) at `batch_size = -5`. -/
theorem c10_negative_int_dropped_witness :
    (∀ st, processKwarg "batch_size" (.int (-5)) st = .ok st) ∧
    buildOptions ([("show_details", PyValue.bool true)] ++
        ("batch_size", PyValue.int (-5)) :: []) =
      buildOptions ([("show_details", PyValue.bool true)] ++ []) :=
  c10_negative_int_dropped "batch_size" (-5)
    [("show_details", PyValue.bool true)] [] (Or.inl rfl) (by decide)

/-! ## Result Marshaller (`lawkit_result_to_python`, src/lib.rs:79-185) -/

/-- Modelled from the spec (§3's table): the payload of BenfordAnalysis.
The defining Rust struct lives in lawkit_core, outside this repository's
source; the field list and types are fixed by the spec's table and by the
accesses in `lawkit_result_to_python`. -/
structure BenfordData where
  observed_distribution : List FloatVal
  expected_distribution : List FloatVal
  chi_square : FloatVal
  p_value : FloatVal
  mad : FloatVal
  risk_level : String
  total_numbers : Nat
  analysis_summary : String
deriving DecidableEq

/-- Modelled from the spec (§3's table): the payload of ParetoAnalysis. -/
structure ParetoData where
  top_20_percent_contribution : FloatVal
  pareto_ratio : FloatVal
  concentration_index : FloatVal
  risk_level : String
  total_items : Nat
  analysis_summary : String
deriving DecidableEq

/-- Modelled from the spec (§3's table): the payload of ZipfAnalysis. -/
structure ZipfData where
  zipf_coefficient : FloatVal
  correlation_coefficient : FloatVal
  deviation_score : FloatVal
  risk_level : String
  total_items : Nat
  analysis_summary : String
deriving DecidableEq

/-- Modelled from the spec (§3's table): the payload of NormalAnalysis. -/
structure NormalData where
  mean : FloatVal
  std_dev : FloatVal
  skewness : FloatVal
  kurtosis : FloatVal
  normality_test_p : FloatVal
  risk_level : String
  total_numbers : Nat
  analysis_summary : String
deriving DecidableEq

/-- Modelled from the spec (§3's table): the payload of PoissonAnalysis. -/
structure PoissonData where
  lambda : FloatVal
  variance_ratio : FloatVal
  poisson_test_p : FloatVal
  risk_level : String
  total_events : Nat
  analysis_summary : String
deriving DecidableEq

/-- Modelled from the spec (§3's table): the payload of
IntegrationAnalysis. -/
structure IntegrationData where
  laws_analyzed : List String
  overall_risk : String
  conflicting_results : List String
  recommendations : List String
  analysis_summary : String
deriving DecidableEq

/-- Modelled from the spec (§3's table): the payload of ValidationResult. -/
structure ValidationData where
  validation_passed : Bool
  issues_found : List String
  data_quality_score : FloatVal
  analysis_summary : String
deriving DecidableEq

/-- Modelled from the spec (§3's table): the payload of DiagnosticResult. -/
structure DiagnosticData where
  diagnostic_type : String
  findings : List String
  confidence_level : FloatVal
  analysis_summary : String
deriving DecidableEq

/-- Modelled from the spec (§3's table): the payload of GeneratedData;
`parameters` is a structured canonical value. -/
structure GeneratedDataInfo where
  data_type : String
  count : Nat
  parameters : Value
  sample_data : List FloatVal
deriving DecidableEq

/-- `lawkit_core::LawkitResult` — the closed tagged union of the nine
analysis results (defined in lawkit_core; variant list and payloads as in
the spec's §3 table and the exhaustive match of src/lib.rs:82-182). -/
inductive LawkitResult where
  | BenfordAnalysis (path : String) (data : BenfordData) : LawkitResult
  | ParetoAnalysis (path : String) (data : ParetoData) : LawkitResult
  | ZipfAnalysis (path : String) (data : ZipfData) : LawkitResult
  | NormalAnalysis (path : String) (data : NormalData) : LawkitResult
  | PoissonAnalysis (path : String) (data : PoissonData) : LawkitResult
  | IntegrationAnalysis (path : String) (data : IntegrationData) : LawkitResult
  | ValidationResult (path : String) (data : ValidationData) : LawkitResult
  | DiagnosticResult (path : String) (data : DiagnosticData) : LawkitResult
  | GeneratedData (path : String) (data : GeneratedDataInfo) : LawkitResult
deriving DecidableEq

/-- `Vec<f64>::to_object`: a Python list of floats. -/
def floatsToPyList : List FloatVal → PyList
  | [] => .nil
  | f :: r => .cons (.float f) (floatsToPyList r)

/-- `Vec<String>::to_object`: a Python list of strs. -/
def stringsToPyList : List String → PyList
  | [] => .nil
  | s :: r => .cons (.str s) (stringsToPyList r)

mutual
/-- Modelled from the spec: the host conversion of the structured
`parameters` field (`data.parameters.to_object(py)`; the `ToPyObject`
impl lives outside this repository's source).  Per spec §4.4 a structured
field is marshalled "via the Value Converter's reverse path": Null→None,
Bool/Int/Float/String map directly, Array→host sequence, Object→host
mapping. -/
def valueToObject : Value → PyValue
  | .null => .none
  | .bool b => .bool b
  | .num (.int i) => .int i
  | .num (.float f) => .float f
  | .str s => .str s
  | .arr xs => .list (arrToObject xs)
  | .obj kvs => .dict (objToObject kvs)

/-- Elementwise `valueToObject` on an array. -/
def arrToObject : JArr → PyList
  | .nil => .nil
  | .cons v tl => .cons (valueToObject v) (arrToObject tl)

/-- Entrywise `valueToObject` on an object, keys as strs, order kept. -/
def objToObject : JObj → PyDict
  | .nil => .nil
  | .cons k v tl => .cons (.str k) (valueToObject v) (objToObject tl)
end

/-- `lawkit_result_to_python` (src/lib.rs:79-185): an exhaustive match
with no default branch; each arm sets "type" to the variant's tag,
"path", and then exactly the variant's fields, in source order. -/
def lawkit_result_to_python : LawkitResult → PyValue
  | .BenfordAnalysis path data =>
      .dict (.cons (.str "type") (.str "BenfordAnalysis")
        (.cons (.str "path") (.str path)
        (.cons (.str "observed_distribution")
          (.list (floatsToPyList data.observed_distribution))
        (.cons (.str "expected_distribution")
          (.list (floatsToPyList data.expected_distribution))
        (.cons (.str "chi_square") (.float data.chi_square)
        (.cons (.str "p_value") (.float data.p_value)
        (.cons (.str "mad") (.float data.mad)
        (.cons (.str "risk_level") (.str data.risk_level)
        (.cons (.str "total_numbers") (.int data.total_numbers)
        (.cons (.str "analysis_summary") (.str data.analysis_summary)
          .nil))))))))))
  | .ParetoAnalysis path data =>
      .dict (.cons (.str "type") (.str "ParetoAnalysis")
        (.cons (.str "path") (.str path)
        (.cons (.str "top_20_percent_contribution")
          (.float data.top_20_percent_contribution)
        (.cons (.str "pareto_ratio") (.float data.pareto_ratio)
        (.cons (.str "concentration_index") (.float data.concentration_index)
        (.cons (.str "risk_level") (.str data.risk_level)
        (.cons (.str "total_items") (.int data.total_items)
        (.cons (.str "analysis_summary") (.str data.analysis_summary)
          .nil))))))))
  | .ZipfAnalysis path data =>
      .dict (.cons (.str "type") (.str "ZipfAnalysis")
        (.cons (.str "path") (.str path)
        (.cons (.str "zipf_coefficient") (.float data.zipf_coefficient)
        (.cons (.str "correlation_coefficient")
          (.float data.correlation_coefficient)
        (.cons (.str "deviation_score") (.float data.deviation_score)
        (.cons (.str "risk_level") (.str data.risk_level)
        (.cons (.str "total_items") (.int data.total_items)
        (.cons (.str "analysis_summary") (.str data.analysis_summary)
          .nil))))))))
  | .NormalAnalysis path data =>
      .dict (.cons (.str "type") (.str "NormalAnalysis")
        (.cons (.str "path") (.str path)
        (.cons (.str "mean") (.float data.mean)
        (.cons (.str "std_dev") (.float data.std_dev)
        (.cons (.str "skewness") (.float data.skewness)
        (.cons (.str "kurtosis") (.float data.kurtosis)
        (.cons (.str "normality_test_p") (.float data.normality_test_p)
        (.cons (.str "risk_level") (.str data.risk_level)
        (.cons (.str "total_numbers") (.int data.total_numbers)
        (.cons (.str "analysis_summary") (.str data.analysis_summary)
          .nil))))))))))
  | .PoissonAnalysis path data =>
      .dict (.cons (.str "type") (.str "PoissonAnalysis")
        (.cons (.str "path") (.str path)
        (.cons (.str "lambda") (.float data.lambda)
        (.cons (.str "variance_ratio") (.float data.variance_ratio)
        (.cons (.str "poisson_test_p") (.float data.poisson_test_p)
        (.cons (.str "risk_level") (.str data.risk_level)
        (.cons (.str "total_events") (.int data.total_events)
        (.cons (.str "analysis_summary") (.str data.analysis_summary)
          .nil))))))))
  | .IntegrationAnalysis path data =>
      .dict (.cons (.str "type") (.str "IntegrationAnalysis")
        (.cons (.str "path") (.str path)
        (.cons (.str "laws_analyzed") (.list (stringsToPyList data.laws_analyzed))
        (.cons (.str "overall_risk") (.str data.overall_risk)
        (.cons (.str "conflicting_results")
          (.list (stringsToPyList data.conflicting_results))
        (.cons (.str "recommendations")
          (.list (stringsToPyList data.recommendations))
        (.cons (.str "analysis_summary") (.str data.analysis_summary)
          .nil)))))))
  | .ValidationResult path data =>
      .dict (.cons (.str "type") (.str "ValidationResult")
        (.cons (.str "path") (.str path)
        (.cons (.str "validation_passed") (.bool data.validation_passed)
        (.cons (.str "issues_found") (.list (stringsToPyList data.issues_found))
        (.cons (.str "data_quality_score") (.float data.data_quality_score)
        (.cons (.str "analysis_summary") (.str data.analysis_summary)
          .nil))))))
  | .DiagnosticResult path data =>
      .dict (.cons (.str "type") (.str "DiagnosticResult")
        (.cons (.str "path") (.str path)
        (.cons (.str "diagnostic_type") (.str data.diagnostic_type)
        (.cons (.str "findings") (.list (stringsToPyList data.findings))
        (.cons (.str "confidence_level") (.float data.confidence_level)
        (.cons (.str "analysis_summary") (.str data.analysis_summary)
          .nil))))))
  | .GeneratedData path data =>
      .dict (.cons (.str "type") (.str "GeneratedData")
        (.cons (.str "path") (.str path)
        (.cons (.str "data_type") (.str data.data_type)
        (.cons (.str "count") (.int data.count)
        (.cons (.str "parameters") (valueToObject data.parameters)
        (.cons (.str "sample_data") (.list (floatsToPyList data.sample_data))
          .nil))))))

/-- The keys of a marshalled record, in insertion order. -/
def pyDictEntriesKeys : PyDict → List PyValue
  | .nil => []
  | .cons k _ tl => k :: pyDictEntriesKeys tl

/-- Keys of a host dict value (empty for non-dicts). -/
def pyKeys : PyValue → List PyValue
  | .dict kvs => pyDictEntriesKeys kvs
  | _ => []

/-- First value bound to a str key in a host dict. -/
def pyDictFind : PyDict → String → Option PyValue
  | .nil, _ => none
  | .cons key v tl, k => if key = .str k then some v else pyDictFind tl k

/-- Lookup of a str key in a host dict value. -/
def pyLookup : PyValue → String → Option PyValue
  | .dict kvs, k => pyDictFind kvs k
  | _, _ => none

/-- The variant's tag string, exactly as in the spec's §3 table. -/
def specTag : LawkitResult → String
  | .BenfordAnalysis _ _ => "BenfordAnalysis"
  | .ParetoAnalysis _ _ => "ParetoAnalysis"
  | .ZipfAnalysis _ _ => "ZipfAnalysis"
  | .NormalAnalysis _ _ => "NormalAnalysis"
  | .PoissonAnalysis _ _ => "PoissonAnalysis"
  | .IntegrationAnalysis _ _ => "IntegrationAnalysis"
  | .ValidationResult _ _ => "ValidationResult"
  | .DiagnosticResult _ _ => "DiagnosticResult"
  | .GeneratedData _ _ => "GeneratedData"

/-- The variant's declared field names, exactly as listed in the spec's §3
table (excluding the common "type" and "path"). -/
def specFields : LawkitResult → List String
  | .BenfordAnalysis _ _ =>
      ["observed_distribution", "expected_distribution", "chi_square",
       "p_value", "mad", "risk_level", "total_numbers", "analysis_summary"]
  | .ParetoAnalysis _ _ =>
      ["top_20_percent_contribution", "pareto_ratio", "concentration_index",
       "risk_level", "total_items", "analysis_summary"]
  | .ZipfAnalysis _ _ =>
      ["zipf_coefficient", "correlation_coefficient", "deviation_score",
       "risk_level", "total_items", "analysis_summary"]
  | .NormalAnalysis _ _ =>
      ["mean", "std_dev", "skewness", "kurtosis", "normality_test_p",
       "risk_level", "total_numbers", "analysis_summary"]
  | .PoissonAnalysis _ _ =>
      ["lambda", "variance_ratio", "poisson_test_p", "risk_level",
       "total_events", "analysis_summary"]
  | .IntegrationAnalysis _ _ =>
      ["laws_analyzed", "overall_risk", "conflicting_results",
       "recommendations", "analysis_summary"]
  | .ValidationResult _ _ =>
      ["validation_passed", "issues_found", "data_quality_score",
       "analysis_summary"]
  | .DiagnosticResult _ _ =>
      ["diagnostic_type", "findings", "confidence_level", "analysis_summary"]
  | .GeneratedData _ _ =>
      ["data_type", "count", "parameters", "sample_data"]

/-- **C3** Closed-variant marshalling totality: for every one of the 9
result variants, the marshalled record's "type" field equals the
variant's tag exactly as in the spec's table, and its key list is exactly
"type", "path", then the variant's declared fields — no extras, no
omissions. -/
theorem c3_marshal_closed_total (r : LawkitResult) :
    pyKeys (lawkit_result_to_python r) =
      ("type" :: "path" :: specFields r).map PyValue.str ∧
    pyLookup (lawkit_result_to_python r) "type" = some (.str (specTag r)) := by
  cases r <;> exact ⟨rfl, rfl⟩

mutual
/-- Every integer number in the value is i64-representable (the spec's
CanonicalValue carries `Int(i64)`, so this holds of every value of the
spec's data model). -/
def Value.intsInRange : Value → Bool
  | .null => true
  | .bool _ => true
  | .num (.int i) => decide (-(2 ^ 63) ≤ i ∧ i < 2 ^ 63)
  | .num (.float _) => true
  | .str _ => true
  | .arr xs => JArr.intsInRange xs
  | .obj kvs => JObj.intsInRange kvs

def JArr.intsInRange : JArr → Bool
  | .nil => true
  | .cons v tl => v.intsInRange && JArr.intsInRange tl

def JObj.intsInRange : JObj → Bool
  | .nil => true
  | .cons _ v tl => v.intsInRange && JObj.intsInRange tl
end

mutual
theorem valueToObject_eq_value_to_python (v : Value)
    (h : v.intsInRange = true) : valueToObject v = value_to_python v := by
  cases v with
  | null => rfl
  | bool b => rfl
  | str s => rfl
  | num n =>
      cases n with
      | int i =>
          simp only [Value.intsInRange, decide_eq_true_eq] at h
          simp only [valueToObject, value_to_python, JNumber.asI64, if_pos h]
      | float f => rfl
  | arr xs =>
      simp only [Value.intsInRange] at h
      simp only [valueToObject, value_to_python,
        arrToObject_eq_valuesToPyList xs h]
  | obj kvs =>
      simp only [Value.intsInRange] at h
      simp only [valueToObject, value_to_python,
        objToObject_eq_mapToPyDict kvs h]

theorem arrToObject_eq_valuesToPyList (xs : JArr)
    (h : JArr.intsInRange xs = true) : arrToObject xs = valuesToPyList xs := by
  cases xs with
  | nil => rfl
  | cons v tl =>
      simp only [JArr.intsInRange, Bool.and_eq_true] at h
      simp only [arrToObject, valuesToPyList,
        valueToObject_eq_value_to_python v h.1,
        arrToObject_eq_valuesToPyList tl h.2]

theorem objToObject_eq_mapToPyDict (kvs : JObj)
    (h : JObj.intsInRange kvs = true) : objToObject kvs = mapToPyDict kvs := by
  cases kvs with
  | nil => rfl
  | cons k v tl =>
      simp only [JObj.intsInRange, Bool.and_eq_true] at h
      simp only [objToObject, mapToPyDict,
        valueToObject_eq_value_to_python v h.1,
        objToObject_eq_mapToPyDict tl h.2]
end

/-- **C9** Reverse-path marshalling of structured fields: the marshalled
"parameters" field of a GeneratedData record is exactly the host value
`value_to_python` produces from the result's parameters value (for every
parameters value of the spec's data model, i.e. with i64 integers). -/
theorem c9_parameters_reverse_path (path : String) (d : GeneratedDataInfo)
    (h : d.parameters.intsInRange = true) :
    pyLookup (lawkit_result_to_python (.GeneratedData path d)) "parameters" =
      some (value_to_python d.parameters) := by
  simp [lawkit_result_to_python, pyLookup, pyDictFind,
    valueToObject_eq_value_to_python d.parameters h]

/-- Witness for C9 at `parameters = {"law": "benf", "count": 10}`. -/
theorem c9_parameters_reverse_path_witness :
    pyLookup (lawkit_result_to_python (.GeneratedData "out.csv"
      { data_type := "benf", count := 10,
        parameters := Value.obj (.cons "law" (.str "benf")
          (.cons "count" (.num (.int 10)) .nil)),
        sample_data := [.finite 1, .finite 2] })) "parameters" =
      some (value_to_python (Value.obj (.cons "law" (.str "benf")
        (.cons "count" (.num (.int 10)) .nil)))) :=
  c9_parameters_reverse_path "out.csv"
    { data_type := "benf", count := 10,
      parameters := Value.obj (.cons "law" (.str "benf")
        (.cons "count" (.num (.int 10)) .nil)),
      sample_data := [.finite 1, .finite 2] } (by rfl)

/-! ## Dispatcher (`law_py`, src/lib.rs:218-367) -/

/-- Marshal the engine's results one by one, in emission order
(the `for result in results { py_list.append(..) }` loop). -/
def resultsToPyList : List LawkitResult → PyList
  | [] => .nil
  | r :: rest => .cons (lawkit_result_to_python r) (resultsToPyList rest)

/-- `law_py` (src/lib.rs:218-367) with the external engine
(`lawkit_core::law`, outside this repository's source) passed as a
function; the engine's error is modelled as the string that `{e:?}`
renders.  Convert the data, build the options, dispatch, and on success
marshal every result in order into one host list; an engine error is
wrapped verbatim in a RuntimeError ("Law analysis error: ..") and nothing
is returned. -/
def law_py
    (engine : String → Value → LawkitOptions → Except String (List LawkitResult))
    (subcommand : String) (dataOrConfig : PyValue)
    (kwargs : List (String × PyValue)) : Except PyErr PyValue := do
  let dataValue ← python_to_value dataOrConfig
  let options ← buildOptions kwargs
  match engine subcommand dataValue options with
  | .error e => .error (.runtimeError ("Law analysis error: " ++ e))
  | .ok results => return .list (resultsToPyList results)

/-- **C8** All-or-nothing result delivery: once the data converted and the
options built, either the engine fails and the call raises a RuntimeError
carrying the engine's diagnostic with no result records at all, or the
engine succeeds and the call returns the complete marshalled sequence in
the engine's emission order. -/
theorem c8_all_or_nothing
    (engine : String → Value → LawkitOptions → Except String (List LawkitResult))
    (subcommand : String) (x : PyValue) (kwargs : List (String × PyValue))
    (dv : Value) (opts : LawkitOptions)
    (hx : python_to_value x = .ok dv) (hk : buildOptions kwargs = .ok opts) :
    (∀ e, engine subcommand dv opts = .error e →
        law_py engine subcommand x kwargs =
          .error (.runtimeError ("Law analysis error: " ++ e))) ∧
    (∀ rs, engine subcommand dv opts = .ok rs →
        law_py engine subcommand x kwargs = .ok (.list (resultsToPyList rs))) := by
  constructor
  · intro e he
    simp [law_py, hx, hk, he, Bind.bind, Except.bind]
  · intro rs hrs
    simp [law_py, hx, hk, hrs, Bind.bind, Except.bind, pure, Except.pure]

/-- Witness for C8: a failing engine propagates its diagnostic and yields
no results. -/
theorem c8_all_or_nothing_witness :
    law_py (fun _ _ _ => .error "boom") "benf" (PyValue.int 1) [] =
      .error (.runtimeError ("Law analysis error: " ++ "boom")) :=
  (c8_all_or_nothing (fun _ _ _ => .error "boom") "benf" (PyValue.int 1) []
    (Value.num (.int 1)) {} (by rfl) (by rfl)).1 "boom" rfl

end Lawkit
